import Mathlib

/-!
# Verification of `cyclone_monitoring.py`

A shallow embedding of the two fetch-and-transform pipelines of the
dashboard script `src/cyclone_monitoring.py`, together with proofs of the
spec's testable properties.

Modelling conventions:
* A pandas dataframe is a list of rows.
* A CSV cell that may be missing (NaN) is an `Option`; `dropna` keeps the
  rows in which every selected column is present.
* `ISO_TIME` values are modelled by integers ordered as the corresponding
  timestamps; `pd.to_datetime` is a monotone reparsing, so the `Date`
  column carries the same integer.  Numeric cells (wind, pressure,
  latitude, longitude) are likewise integers: the pipelines never compute
  with them, they only copy them, so only equality matters.
* `sort_values(by="Date", ascending=False)` is a sort by the relation
  "has greater-or-equal date"; `groupby("Name")` sorts its group keys
  ascending (pandas default `sort=True`) and `.first()` takes, for a
  frame with no missing values, the first row of each group in frame
  order; `.reset_index()` turns the key back into a column; `head(50)`
  is `List.take 50`.
* Python exceptions are an explicit `Except` layer: `try`/`except`
  clauses become matches on the error value.  The live fetcher catches
  only `requests.exceptions.RequestException` (which includes HTTP
  status errors, transport errors and `requests` JSON decode errors),
  while the historical fetcher catches every exception.
* Streamlit rendering is the final conditional branching of the script:
  each pipeline result is either rendered as a table (plus chart) or
  replaced by its fallback message.
-/

/-- A raw row of the IBTrACS CSV after the column selection
`df[["NAME", "SEASON", "ISO_TIME", "WMO_WIND", "WMO_PRES", "LAT", "LON"]]`;
each cell may be missing (NaN). -/
structure RawHistRow where
  NAME : Option String
  SEASON : Option Int
  ISO_TIME : Option Int
  WMO_WIND : Option Int
  WMO_PRES : Option Int
  LAT : Option Int
  LON : Option Int
deriving DecidableEq, Repr

/-- A historical record after `dropna` and the column renaming:
`Name`, `Year`, `Date`, `Wind Speed (knots)`, `Pressure (hPa)`,
`Latitude`, `Longitude`. -/
structure HistRow where
  name : String
  year : Int
  date : Int
  wind : Int
  pres : Int
  lat : Int
  lon : Int
deriving DecidableEq, Repr

/-- The completion of a raw row: `some` exactly when no selected column is
missing, in which case the renamed record is built from the row's own
cells. -/
def completeRow (r : RawHistRow) : Option HistRow :=
  match r.NAME, r.SEASON, r.ISO_TIME, r.WMO_WIND, r.WMO_PRES, r.LAT, r.LON with
  | some n, some s, some t, some w, some p, some la, some lo =>
      some ⟨n, s, t, w, p, la, lo⟩
  | _, _, _, _, _, _, _ => none

/-- `df[[...]].dropna()` followed by the renaming and `pd.to_datetime`:
keep exactly the rows with no missing cell. -/
def dropna (rows : List RawHistRow) : List HistRow :=
  rows.filterMap completeRow

/-- The descending-date order used by
`sort_values(by="Date", ascending=False)`. -/
def dateGE (a b : HistRow) : Prop :=
  b.date ≤ a.date

instance : DecidableRel dateGE := fun a b =>
  inferInstanceAs (Decidable (b.date ≤ a.date))

instance : IsTotal HistRow dateGE :=
  ⟨fun a b => le_total b.date a.date⟩

instance : IsTrans HistRow dateGE :=
  ⟨fun _ _ _ h1 h2 => le_trans h2 h1⟩

/-- `df_filtered.sort_values(by="Date", ascending=False)`. -/
def sort_values_desc (l : List HistRow) : List HistRow :=
  List.insertionSort dateGE l

/-- The ascending order on storm names used by `groupby`'s key sort:
Python compares strings lexicographically by code point, which is the
lexicographic order on the underlying character list. -/
def nameLE (a b : String) : Prop :=
  a.data ≤ b.data

/-- The corresponding strict order on storm names. -/
def nameLT (a b : String) : Prop :=
  a.data < b.data

instance : DecidableRel nameLE := fun a b =>
  inferInstanceAs (Decidable (a.data ≤ b.data))

instance : DecidableRel nameLT := fun a b =>
  inferInstanceAs (Decidable (a.data < b.data))

instance : IsTotal String nameLE :=
  ⟨fun a b => le_total a.data b.data⟩

instance : IsTrans String nameLE :=
  ⟨fun _ _ _ h1 h2 => le_trans h1 h2⟩

/-- The group keys of `groupby("Name")`: the distinct storm names of the
frame, sorted ascending (pandas groupby default `sort=True`). -/
def groupKeys (l : List HistRow) : List String :=
  List.insertionSort nameLE (l.map HistRow.name).dedup

/-- `groupby("Name").first().reset_index()` on a frame with no missing
values: for each group key in ascending order, the first row of the frame
carrying that name. -/
def groupby_first (l : List HistRow) : List HistRow :=
  (groupKeys l).filterMap fun n => (l.filter fun r => r.name == n).head?

/-- The dataframe transformation of `fetch_last_50_cyclones` (the part
after `pd.read_csv` succeeds): select columns, drop incomplete rows,
parse dates, sort by date descending, keep the first row per storm name,
truncate to 50 rows. -/
def fetch_last_50_cyclones (rows : List RawHistRow) : List HistRow :=
  (groupby_first (sort_values_desc (dropna rows))).take 50

/-- Dynamically raised Python errors relevant to the script.
`requestException` stands for any `requests.exceptions.RequestException`
(HTTP status error from `raise_for_status`, transport error, or the
`requests` JSON decode error, which subclasses it); `keyError` stands for
the `KeyError` raised by a missing dict key or dataframe column. -/
inductive PyError where
  | requestException
  | keyError
deriving DecidableEq, Repr

/-- One entry of the live feed's `"storms"` list; each expected key may be
absent from the JSON object. -/
structure StormJson where
  name : Option String
  wind : Option Int
  pressure : Option Int
  lat : Option Int
  lon : Option Int
deriving DecidableEq, Repr

/-- A record of the live dataframe: `Name`, `Wind Speed (knots)`,
`Pressure (hPa)`, `Latitude`, `Longitude`. -/
structure ActiveRecord where
  name : String
  wind : Int
  pressure : Int
  lat : Int
  lon : Int
deriving DecidableEq, Repr

/-- The record built by one iteration of the loop body of
`fetch_real_time_cyclones`: each `storm[...]` subscript raises `KeyError`
when the key is absent. -/
def storm_fields (s : StormJson) : Except PyError ActiveRecord :=
  match s.name, s.wind, s.pressure, s.lat, s.lon with
  | some n, some w, some p, some la, some lo => .ok ⟨n, w, p, la, lo⟩
  | _, _, _, _, _ => .error .keyError

/-- The `for storm in data.get("storms", [])` loop: appends one record per
entry; the first `KeyError` aborts the loop and propagates. -/
def build_storms : List StormJson → Except PyError (List ActiveRecord)
  | [] => .ok []
  | s :: rest =>
      match storm_fields s with
      | .error e => .error e
      | .ok r =>
          match build_storms rest with
          | .error e => .error e
          | .ok rs => .ok (r :: rs)

/-- The total field extraction on a complete storm entry (the defaults are
never used when every key is present). -/
def extract (s : StormJson) : ActiveRecord :=
  ⟨s.name.getD "", s.wind.getD 0, s.pressure.getD 0, s.lat.getD 0, s.lon.getD 0⟩

/-- Whether a storm entry carries all five expected keys. -/
def storm_complete (s : StormJson) : Bool :=
  s.name.isSome && s.wind.isSome && s.pressure.isSome && s.lat.isSome && s.lon.isSome

/-- The observable input of the live fetcher: what
`requests.get(REALTIME_CYCLONE_URL)` and `response.json()` produce. -/
inductive LiveResponse where
  | transportError
  | httpError (code : Nat)
  | malformedJson
  | jsonOk (storms : List StormJson)
deriving DecidableEq, Repr

/-- The body of the `try` block of `fetch_real_time_cyclones`: a transport
failure raises inside `requests.get`, `raise_for_status` raises on a
non-success status, `response.json()` raises the `requests` JSON decode
error (a `RequestException`) on a malformed body, and the loop raises
`KeyError` on a missing storm field; otherwise the result is the
dataframe when the list is non-empty, `None` when it is empty. -/
def fetch_real_time_body (resp : LiveResponse) :
    Except PyError (Option (List ActiveRecord)) :=
  match resp with
  | .transportError => .error .requestException
  | .httpError _ => .error .requestException
  | .malformedJson => .error .requestException
  | .jsonOk storms =>
      match build_storms storms with
      | .error e => .error e
      | .ok recs => .ok (if recs.isEmpty then none else some recs)

/-- A fetcher's observable outcome when it returns: its result (`None`
modelled as `none`) and whether it displayed an `st.error` message. -/
structure FetchOutcome (α : Type) where
  result : Option α
  errorShown : Bool
deriving DecidableEq, Repr

/-- `fetch_real_time_cyclones` with its `except
requests.exceptions.RequestException` clause: request-related errors are
caught (an error message is shown, `None` is returned); any other error
propagates out of the function. -/
def fetch_real_time_cyclones (resp : LiveResponse) :
    Except PyError (FetchOutcome (List ActiveRecord)) :=
  match fetch_real_time_body resp with
  | .ok v => .ok ⟨v, false⟩
  | .error .requestException => .ok ⟨none, true⟩
  | .error e => .error e

/-- The observable input of the historical fetcher: what
`pd.read_csv(IBTRACS_CSV_URL, skiprows=[1])` produces.  `fetchError` is a
network failure during the download, `parseError` any malformed-CSV or
missing-column failure, `csvOk rows` a parsed frame (metadata row already
skipped) restricted to the selected columns. -/
inductive HistResponse where
  | fetchError
  | parseError
  | csvOk (rows : List RawHistRow)
deriving DecidableEq, Repr

/-- The body of the `try` block of `fetch_last_50_cyclones`. -/
def fetch_hist_body (resp : HistResponse) : Except PyError (List HistRow) :=
  match resp with
  | .fetchError => .error .requestException
  | .parseError => .error .keyError
  | .csvOk rows => .ok (fetch_last_50_cyclones rows)

/-- `fetch_last_50_cyclones` with its `except Exception` clause: every
error is caught (an error message is shown, `None` is returned), so the
function always returns. -/
def fetch_last_50_cyclones_full (resp : HistResponse) :
    FetchOutcome (List HistRow) :=
  match fetch_hist_body resp with
  | .ok v => ⟨some v, false⟩
  | .error _ => ⟨none, true⟩

/-- What the script renders for the live pipeline. -/
inductive LiveRender where
  | table (rows : List ActiveRecord)
  | successMsg
deriving DecidableEq, Repr

/-- `if real_time_data is not None: st.write(...) ... else:
st.success("No active cyclones detected.")`. -/
def render_live (d : Option (List ActiveRecord)) : LiveRender :=
  match d with
  | some rows => .table rows
  | none => .successMsg

/-- What the script renders for the historical pipeline. -/
inductive HistRender where
  | table (rows : List HistRow)
  | warning
deriving DecidableEq, Repr

/-- `if past_cyclone_data is not None: st.write(...) ... else:
st.warning("Could not retrieve the last 50 cyclones.")`. -/
def render_past (d : Option (List HistRow)) : HistRender :=
  match d with
  | some rows => .table rows
  | none => .warning

/-- The full page: each pipeline's branch is rendered from that
pipeline's result alone. -/
structure Page where
  live : LiveRender
  hist : HistRender
deriving DecidableEq, Repr

/-- The script's top-level rendering of both pipeline results. -/
def render_page (l : Option (List ActiveRecord)) (h : Option (List HistRow)) :
    Page :=
  ⟨render_live l, render_past h⟩

/-- A complete raw CSV row with the given name and date (used for concrete
instances). -/
def mkRawRow (n : String) (d : Int) : RawHistRow :=
  ⟨some n, some 2020, some d, some 50, some 990, some 10, some 20⟩

/-- Two complete rows whose alphabetic and chronological orders disagree:
ALPHA is older than BETA but alphabetically first. -/
def twoStormRows : List RawHistRow :=
  [mkRawRow "ALPHA" 1, mkRawRow "BETA" 2]

/-- A raw CSV row with a missing pressure cell. -/
def incompleteRow : RawHistRow :=
  ⟨some "GAMMA", some 2021, some 5, some 40, none, some 1, some 2⟩

/-- A storm entry of the live feed that lacks the `"wind"` key. -/
def noWindStorm : StormJson :=
  ⟨some "DELTA", none, some 990, some 10, some 20⟩

/-- A storm entry of the live feed carrying all five expected keys. -/
def fullStorm : StormJson :=
  ⟨some "EPSILON", some 45, some 995, some 12, some 34⟩

section Helpers

/-- The descending sort of the historical pipeline is ordered by
greater-or-equal date. -/
lemma sorted_sort_values_desc (l : List HistRow) :
    (sort_values_desc l).Pairwise dateGE :=
  List.sorted_insertionSort dateGE l

/-- The descending sort permutes the frame. -/
lemma perm_sort_values_desc (l : List HistRow) : List.Perm (sort_values_desc l) l :=
  List.perm_insertionSort dateGE l

/-- Two strings with the same character list are equal. -/
lemma string_data_inj {a b : String} (h : a.data = b.data) : a = b := by
  cases a
  cases b
  simp only at h
  simp [h]

/-- `nameLT` is irreflexive after identification. -/
lemma nameLT_ne {a b : String} (h : nameLT a b) : a ≠ b := by
  intro he
  subst he
  exact lt_irrefl a.data h

/-- The head of a name-filtered frame carries that name. -/
lemma head_filter_name {l : List HistRow} {n : String} {r : HistRow}
    (h : (l.filter fun x => x.name == n).head? = some r) : r.name = n := by
  have hmem : ∀ x ∈ l.filter fun y => y.name == n, x.name = n := by
    intro x hx
    simpa using (List.mem_filter.mp hx).2
  cases hg : l.filter fun x => x.name == n with
  | nil => rw [hg] at h; simp at h
  | cons a t =>
    rw [hg] at h
    simp only [List.head?_cons, Option.some.injEq] at h
    exact h ▸ hmem a (by rw [hg]; exact List.mem_cons_self a t)

/-- The group keys are strictly ascending in the name order. -/
lemma groupKeys_pairwise_lt (l : List HistRow) :
    (groupKeys l).Pairwise nameLT := by
  have hs : (groupKeys l).Pairwise nameLE :=
    List.sorted_insertionSort nameLE (l.map HistRow.name).dedup
  have hn : (groupKeys l).Pairwise (fun a b => a ≠ b) :=
    (List.perm_insertionSort nameLE (l.map HistRow.name).dedup).symm.nodup
      (List.nodup_dedup (l.map HistRow.name))
  refine hs.imp₂ (fun a b hle hne => ?_) hn
  exact lt_of_le_of_ne hle (fun hd => hne (string_data_inj hd))

/-- Rows of the deduplicated historical output are strictly ascending by
storm name. -/
lemma fetch_pairwise_names (rows : List RawHistRow) :
    (fetch_last_50_cyclones rows).Pairwise fun a b => nameLT a.name b.name := by
  apply List.Pairwise.take
  unfold groupby_first
  rw [List.pairwise_filterMap]
  refine (groupKeys_pairwise_lt _).imp ?_
  intro n n' hlt b hb b' hb'
  rw [head_filter_name (Option.mem_def.mp hb), head_filter_name (Option.mem_def.mp hb')]
  exact hlt

/-- Every deduplicated-output row is a post-filter row, and its date is an
upper bound of the dates of the post-filter rows sharing its name. -/
lemma fetch_mem_spec {rows : List RawHistRow} {r : HistRow}
    (hr : r ∈ fetch_last_50_cyclones rows) :
    r ∈ dropna rows ∧ ∀ r2 ∈ dropna rows, r2.name = r.name → r2.date ≤ r.date := by
  have h1 : r ∈ groupby_first (sort_values_desc (dropna rows)) :=
    List.mem_of_mem_take hr
  obtain ⟨n, _, hfn⟩ := List.mem_filterMap.mp h1
  have hrname : r.name = n := head_filter_name hfn
  cases hg : (sort_values_desc (dropna rows)).filter fun x => x.name == n with
  | nil => rw [hg] at hfn; simp at hfn
  | cons a t =>
    rw [hg] at hfn
    simp only [List.head?_cons, Option.some.injEq] at hfn
    have hrg : r ∈ (sort_values_desc (dropna rows)).filter fun x => x.name == n := by
      rw [hg, ← hfn]; exact List.mem_cons_self a t
    have hrs : r ∈ sort_values_desc (dropna rows) := (List.mem_filter.mp hrg).1
    refine ⟨(perm_sort_values_desc (dropna rows)).subset hrs, ?_⟩
    intro r2 h2 hname
    have h2s : r2 ∈ sort_values_desc (dropna rows) :=
      (perm_sort_values_desc (dropna rows)).symm.subset h2
    have h2g : r2 ∈ (sort_values_desc (dropna rows)).filter fun x => x.name == n := by
      refine List.mem_filter.mpr ⟨h2s, ?_⟩
      rw [hname, hrname]
      simp
    rw [hg] at h2g
    rcases List.mem_cons.mp h2g with he | ht
    · rw [he, hfn]
    · have hps : ((sort_values_desc (dropna rows)).filter
          fun x => x.name == n).Pairwise dateGE :=
        (sorted_sort_values_desc (dropna rows)).filter _
      rw [hg] at hps
      have hb := (List.pairwise_cons.mp hps).1 r2 ht
      rw [← hfn]
      exact hb

/-- If the drop-incomplete-row filter removes every row, the historical
transformation yields the empty frame. -/
lemma fetch_of_dropna_nil {rows : List RawHistRow} (h : dropna rows = []) :
    fetch_last_50_cyclones rows = [] := by
  unfold fetch_last_50_cyclones
  rw [h]
  rfl

/-- On a storm entry carrying all five keys, the loop body builds the
record of the entry's own fields. -/
lemma storm_fields_complete {s : StormJson} (h : storm_complete s = true) :
    storm_fields s = Except.ok (extract s) := by
  rcases s with ⟨n, w, p, la, lo⟩
  cases n <;> cases w <;> cases p <;> cases la <;> cases lo <;>
    simp_all [storm_complete, storm_fields, extract]

/-- On a storm list whose entries all carry the five keys, the loop maps
each entry to its record. -/
lemma build_storms_complete {storms : List StormJson}
    (h : ∀ s ∈ storms, storm_complete s = true) :
    build_storms storms = Except.ok (storms.map extract) := by
  induction storms with
  | nil => rfl
  | cons s rest ih =>
    have hs := storm_fields_complete (h s (List.mem_cons_self s rest))
    have hr := ih fun x hx => h x (List.mem_cons_of_mem s hx)
    simp [build_storms, hs, hr]

end Helpers

/-- C1: claimed that the historical output is sorted by date descending up
to truncation, with the 50 most recent unique storms kept.  The code
instead returns the frame re-sorted by storm name ascending (the groupby
re-sorts its keys) and truncates to the alphabetically first 50 names: on
two complete rows ALPHA (date 1) and BETA (date 2) the output is
[ALPHA, BETA], which is not descending by date, though the code's own
docstring and comments promise the latest 50 cyclones. -/
theorem c1_code_divergence :
    fetch_last_50_cyclones twoStormRows =
      [⟨"ALPHA", 2020, 1, 50, 990, 10, 20⟩, ⟨"BETA", 2020, 2, 50, 990, 10, 20⟩] ∧
    ¬ (fetch_last_50_cyclones twoStormRows).Pairwise dateGE :=
  ⟨by decide, by decide⟩

/-- C2: every record of a successful historical fetch carries the maximum
date among the post-filter rows sharing its storm name: that date is
attained by such a row and bounds all of them. -/
theorem c2_output_date_is_group_max (rows : List RawHistRow) (r : HistRow)
    (hr : r ∈ fetch_last_50_cyclones rows) :
    (∃ r2 ∈ dropna rows, r2.name = r.name ∧ r2.date = r.date) ∧
    ∀ r2 ∈ dropna rows, r2.name = r.name → r2.date ≤ r.date := by
  obtain ⟨h1, h2⟩ := fetch_mem_spec hr
  exact ⟨⟨r, h1, rfl, rfl⟩, h2⟩

/-- Witness for C2 at a concrete input: the output row named ALPHA of the
two-storm frame attains and bounds the dates of its group. -/
theorem c2_witness :
    (∃ r2 ∈ dropna twoStormRows,
      r2.name = (⟨"ALPHA", 2020, 1, 50, 990, 10, 20⟩ : HistRow).name ∧
      r2.date = (⟨"ALPHA", 2020, 1, 50, 990, 10, 20⟩ : HistRow).date) ∧
    ∀ r2 ∈ dropna twoStormRows,
      r2.name = (⟨"ALPHA", 2020, 1, 50, 990, 10, 20⟩ : HistRow).name →
      r2.date ≤ (⟨"ALPHA", 2020, 1, 50, 990, 10, 20⟩ : HistRow).date :=
  c2_output_date_is_group_max twoStormRows ⟨"ALPHA", 2020, 1, 50, 990, 10, 20⟩
    (by decide)

/-- C3: every successful historical fetch returns at most 50 records, no
two of which share a storm name. -/
theorem c3_at_most_50_unique_names (rows : List RawHistRow) :
    (fetch_last_50_cyclones rows).length ≤ 50 ∧
    (fetch_last_50_cyclones rows).Pairwise fun a b => a.name ≠ b.name := by
  constructor
  · unfold fetch_last_50_cyclones
    exact List.length_take_le 50 _
  · exact (fetch_pairwise_names rows).imp fun h => nameLT_ne h

/-- C4 counterexample: on a CSV whose single row misses a required cell,
the row is excluded, but the fetch returns an empty frame (which is not
`None`), so the script renders the historical-table branch with an empty
table instead of the claimed retrieval-failure warning. -/
theorem c4_counterexample :
    dropna [incompleteRow] = [] ∧
    render_past (fetch_last_50_cyclones_full (HistResponse.csvOk [incompleteRow])).result =
      HistRender.table [] ∧
    render_past (fetch_last_50_cyclones_full (HistResponse.csvOk [incompleteRow])).result ≠
      HistRender.warning :=
  ⟨by decide, by decide, by decide⟩

/-- C4 amended: a row with a missing required cell is excluded from the
output (every output row is a post-filter row); when every row is
excluded, the fetch returns an empty present frame and the script renders
the historical table branch with an empty table, not the warning (which
appears only when the fetch raises). -/
theorem c4_amended_empty_table (rows : List RawHistRow) :
    (∀ r ∈ fetch_last_50_cyclones rows, r ∈ dropna rows) ∧
    (dropna rows = [] →
      (fetch_last_50_cyclones_full (HistResponse.csvOk rows)).result = some [] ∧
      render_past (fetch_last_50_cyclones_full (HistResponse.csvOk rows)).result =
        HistRender.table []) := by
  constructor
  · intro r hr
    exact (fetch_mem_spec hr).1
  · intro h
    have hf : fetch_last_50_cyclones rows = [] := fetch_of_dropna_nil h
    constructor
    · simp [fetch_last_50_cyclones_full, fetch_hist_body, hf]
    · simp [fetch_last_50_cyclones_full, fetch_hist_body, hf, render_past]

/-- Witness for C4 at a concrete input: on the one-incomplete-row CSV the
fetch yields the empty present frame and the table branch is rendered. -/
theorem c4_witness :
    (fetch_last_50_cyclones_full (HistResponse.csvOk [incompleteRow])).result = some [] ∧
    render_past (fetch_last_50_cyclones_full (HistResponse.csvOk [incompleteRow])).result =
      HistRender.table [] :=
  (c4_amended_empty_table [incompleteRow]).2 (by decide)

/-- C5: on a successful live fetch with a non-empty storm list whose
entries all carry the expected keys, the output has one record per entry,
and each record's name, wind, pressure, latitude and longitude are the
corresponding entry's fields verbatim. -/
theorem c5_live_fields_verbatim (storms : List StormJson)
    (hc : ∀ s ∈ storms, storm_complete s = true) (hne : storms ≠ []) :
    fetch_real_time_cyclones (LiveResponse.jsonOk storms) =
      Except.ok ⟨some (storms.map extract), false⟩ ∧
    (storms.map extract).length = storms.length ∧
    ∀ s ∈ storms,
      s.name = some (extract s).name ∧ s.wind = some (extract s).wind ∧
      s.pressure = some (extract s).pressure ∧ s.lat = some (extract s).lat ∧
      s.lon = some (extract s).lon := by
  refine ⟨?_, List.length_map _ _, ?_⟩
  · have hb := build_storms_complete hc
    simp [fetch_real_time_cyclones, fetch_real_time_body, hb, List.isEmpty_iff,
      List.map_eq_nil_iff, hne]
  · intro s hs
    have h := hc s hs
    rcases s with ⟨n, w, p, la, lo⟩
    cases n <;> cases w <;> cases p <;> cases la <;> cases lo <;>
      simp_all [storm_complete, extract]

/-- Witness for C5 at a concrete input: a one-entry storm list with all
keys present is copied verbatim into the output frame. -/
theorem c5_witness :
    fetch_real_time_cyclones (LiveResponse.jsonOk [fullStorm]) =
      Except.ok ⟨some ([fullStorm].map extract), false⟩ ∧
    ([fullStorm].map extract).length = [fullStorm].length ∧
    ∀ s ∈ [fullStorm],
      s.name = some (extract s).name ∧ s.wind = some (extract s).wind ∧
      s.pressure = some (extract s).pressure ∧ s.lat = some (extract s).lat ∧
      s.lon = some (extract s).lon :=
  c5_live_fields_verbatim [fullStorm] (by decide) (by decide)

/-- C6 counterexample: a storm entry lacking the `"wind"` key makes the
live fetch raise `KeyError`, which its handler (restricted to
`RequestException`) does not catch, so the error propagates out of the
fetch function, contradicting the claim that both pipelines catch every
error at their own boundary. -/
theorem c6_counterexample :
    fetch_real_time_cyclones (LiveResponse.jsonOk [noWindStorm]) =
      Except.error PyError.keyError :=
  rfl

/-- C6 amended: the historical pipeline catches every error at its
boundary, shows a message and returns an absent result; the live pipeline
does the same for request-related errors (transport failure, bad HTTP
status, malformed JSON), but a `KeyError` raised by a storm entry missing
an expected field propagates out of the live fetch uncaught. -/
theorem c6_amended_boundaries :
    (∀ (resp : HistResponse) (e : PyError), fetch_hist_body resp = Except.error e →
      fetch_last_50_cyclones_full resp = ⟨none, true⟩) ∧
    (∀ resp : LiveResponse,
      fetch_real_time_body resp = Except.error PyError.requestException →
      fetch_real_time_cyclones resp = Except.ok ⟨none, true⟩) ∧
    (∀ resp : LiveResponse,
      fetch_real_time_body resp = Except.error PyError.keyError →
      fetch_real_time_cyclones resp = Except.error PyError.keyError) := by
  refine ⟨?_, ?_, ?_⟩
  · intro resp e h
    unfold fetch_last_50_cyclones_full
    rw [h]
  · intro resp h
    unfold fetch_real_time_cyclones
    rw [h]
  · intro resp h
    unfold fetch_real_time_cyclones
    rw [h]

/-- Witness for C6 at concrete inputs: a CSV parse failure is caught by
the historical pipeline, a malformed JSON body is caught by the live
pipeline, and a missing storm field propagates out of the live fetch. -/
theorem c6_witness :
    fetch_last_50_cyclones_full HistResponse.parseError = ⟨none, true⟩ ∧
    fetch_real_time_cyclones LiveResponse.malformedJson = Except.ok ⟨none, true⟩ ∧
    fetch_real_time_cyclones (LiveResponse.jsonOk [noWindStorm]) =
      Except.error PyError.keyError :=
  ⟨c6_amended_boundaries.1 HistResponse.parseError PyError.keyError rfl,
   c6_amended_boundaries.2.1 LiveResponse.malformedJson rfl,
   c6_amended_boundaries.2.2 (LiveResponse.jsonOk [noWindStorm]) rfl⟩

/-- C7: on a live feed body `{"storms": []}` the live fetch returns the
absent result without an error message, and the script's live branch
renders the no-active-cyclones success message, never a table. -/
theorem c7_empty_storms_success_message :
    fetch_real_time_cyclones (LiveResponse.jsonOk []) = Except.ok ⟨none, false⟩ ∧
    render_live none = LiveRender.successMsg ∧
    ∀ rows, render_live none ≠ LiveRender.table rows := by
  refine ⟨rfl, rfl, ?_⟩
  intro rows h
  simp [render_live] at h

/-- C8: a transport failure or a non-success HTTP status on either feed
makes that pipeline show an error message and return an absent result,
rendering stays total, and each pipeline's rendered branch depends only
on its own result. -/
theorem c8_failure_isolation (code : Nat) (l l2 : Option (List ActiveRecord))
    (h h2 : Option (List HistRow)) :
    fetch_real_time_cyclones LiveResponse.transportError = Except.ok ⟨none, true⟩ ∧
    fetch_real_time_cyclones (LiveResponse.httpError code) = Except.ok ⟨none, true⟩ ∧
    fetch_last_50_cyclones_full HistResponse.fetchError = ⟨none, true⟩ ∧
    (render_page l h).hist = (render_page l2 h).hist ∧
    (render_page l h).live = (render_page l h2).live :=
  ⟨rfl, rfl, rfl, rfl, rfl⟩

/-- C9: the rows of a successful historical fetch are ordered by storm
name strictly ascending, the order produced by the groupby key sort. -/
theorem c9_sorted_by_name_ascending (rows : List RawHistRow) :
    (fetch_last_50_cyclones rows).Pairwise fun a b => nameLT a.name b.name :=
  fetch_pairwise_names rows

/-- C10: every record of a successful historical fetch is one of the
post-filter input rows taken whole; no output row mixes cells of
different input rows. -/
theorem c10_rows_taken_whole (rows : List RawHistRow) (r : HistRow)
    (hr : r ∈ fetch_last_50_cyclones rows) : r ∈ dropna rows :=
  (fetch_mem_spec hr).1

/-- Witness for C10 at a concrete input: the output row named ALPHA of the
two-storm frame is one of the post-filter rows. -/
theorem c10_witness :
    (⟨"ALPHA", 2020, 1, 50, 990, 10, 20⟩ : HistRow) ∈ dropna twoStormRows :=
  c10_rows_taken_whole twoStormRows ⟨"ALPHA", 2020, 1, 50, 990, 10, 20⟩ (by decide)
